import Mathlib

/-!
# Control-surface synchronization protocol: verification of spec claims

Shallow embedding of the Stream Deck integration of the mxvoice-electron
repository:

* the client-side reconnection engine of the Stream Deck plugin
  (`code.js`: `MXVOICE_CONFIG`, `scheduleReconnect`, `handleWebSocketOpen`,
  `handleWebSocketClose`, `clearReconnectTimers`, `forceReconnect`),
* the host-side WebSocket server module
  (`src/main/modules/stream-deck.js`: `streamDeckState`, `startServer`,
  `stopServer`, `handleConnection`, `handleDisconnection`,
  `handleConnectionError`, `handleServerError`, `handleMessage`,
  `handleActionCommand`, `setupActionHandlers`, `sendMessage`,
  `sendActionResponse`, `broadcastMessage`), and
* the renderer-side hotkey tab-switch deduplicator
  (`hotkeys` module: `setupTabSwitchListeners`, `switchToHotkeyTab`).

JavaScript numbers that the code manipulates exactly (delays, volume,
position) are modelled as rationals `ℚ`; every value appearing in this
development is exactly representable in binary floating point, so nothing
is lost.  Timestamps are integers (epoch milliseconds).  Renderer IPC
messages sent with `mainWindow.webContents.send(channel, ...)` are
recorded as the list of channel names sent; effects whose results feed
back into the module (`ipcMain.invoke('get-loop-state')` and the
`executeJavaScript` DOM queries) are supplied by a `HostEnv` record
standing for the renderer process.  Response payload data fields that no
claim inspects (timestamps, echoed values, hotkey tables) are elided from
the wire-message model; the `action` name, `success` flag and `error`
object of every response are kept exactly.
-/

/-- JavaScript `Math.min` on two (non-NaN) numbers. -/
def mathMin (a b : ℚ) : ℚ := if a ≤ b then a else b

namespace Client

/-- Plugin configuration object, field for field from `MXVOICE_CONFIG` in the
Stream Deck plugin source. -/
structure PluginConfig where
  reconnectDelay : ℚ
  maxReconnectDelay : ℚ
  maxReconnectAttempts : ℕ
  slowReconnectDelay : ℚ
  pingInterval : ℚ
  reconnectBackoffMultiplier : ℚ

/-- The `MXVOICE_CONFIG` literal from the plugin source (host/port omitted:
they play no role in the reconnection engine). -/
def MXVOICE_CONFIG : PluginConfig :=
  { reconnectDelay := 3000
    maxReconnectDelay := 30000
    maxReconnectAttempts := 10
    slowReconnectDelay := 60000
    pingInterval := 30000
    reconnectBackoffMultiplier := 1.5 }

/-- The plugin's module-level mutable variables that drive the reconnection
engine: `isConnected`, `reconnectAttempts`, `currentReconnectDelay`,
`reconnectTimer` (modelled as the delay of the pending fast-retry timeout,
if one is scheduled), `slowReconnectTimer` (whether the slow periodic
interval is armed) and `pingTimer`. -/
structure ClientState where
  isConnected : Bool
  reconnectAttempts : ℕ
  currentReconnectDelay : ℚ
  reconnectTimer : Option ℚ
  slowReconnectTimer : Bool
  pingTimer : Bool
  deriving Repr, DecidableEq

/-- Initial values of the plugin globals (`let reconnectAttempts = 0` etc.). -/
def initialClientState : ClientState :=
  { isConnected := false
    reconnectAttempts := 0
    currentReconnectDelay := MXVOICE_CONFIG.reconnectDelay
    reconnectTimer := none
    slowReconnectTimer := false
    pingTimer := false }

/-- Embedding of `clearReconnectTimers()`: cancels the fast-retry timeout and
the slow periodic interval. -/
def clearReconnectTimers (s : ClientState) : ClientState :=
  { s with reconnectTimer := none, slowReconnectTimer := false }

/-- Embedding of `stopPingTimer()`. -/
def stopPingTimer (s : ClientState) : ClientState :=
  { s with pingTimer := false }

/-- Embedding of `startSlowReconnect()`: arms the fixed 60000 ms periodic
interval. -/
def startSlowReconnect (s : ClientState) : ClientState :=
  { s with slowReconnectTimer := true }

/-- Embedding of `scheduleReconnect()`: clears existing timers; while fewer
than `maxReconnectAttempts` fast attempts have been used it increments
`reconnectAttempts`, schedules a timeout of
`Math.min(currentReconnectDelay, maxReconnectDelay)` and multiplies
`currentReconnectDelay` by the backoff multiplier (capped at the maximum);
otherwise it switches to the slow periodic mode. -/
def scheduleReconnect (s : ClientState) : ClientState :=
  let s := clearReconnectTimers s
  if s.reconnectAttempts < MXVOICE_CONFIG.maxReconnectAttempts then
    { s with
      reconnectAttempts := s.reconnectAttempts + 1
      reconnectTimer :=
        some (mathMin s.currentReconnectDelay MXVOICE_CONFIG.maxReconnectDelay)
      currentReconnectDelay :=
        mathMin (s.currentReconnectDelay * MXVOICE_CONFIG.reconnectBackoffMultiplier)
          MXVOICE_CONFIG.maxReconnectDelay }
  else
    startSlowReconnect s

/-- Embedding of `handleWebSocketOpen()`: marks the session connected, resets
`reconnectAttempts` to 0 and the delay to the base delay, clears the retry
timers and starts the ping timer. -/
def handleWebSocketOpen (s : ClientState) : ClientState :=
  let s := { s with
    isConnected := true
    reconnectAttempts := 0
    currentReconnectDelay := MXVOICE_CONFIG.reconnectDelay }
  let s := clearReconnectTimers s
  { s with pingTimer := true }

/-- Embedding of `handleWebSocketClose(event)`: marks disconnected, stops the
ping timer, and schedules a reconnect unless the close code is the
clean-shutdown code 1000. -/
def handleWebSocketClose (s : ClientState) (code : ℕ) : ClientState :=
  let s := stopPingTimer { s with isConnected := false }
  if code ≠ 1000 then scheduleReconnect s else s

/-- Embedding of `forceReconnect()`: closes any existing socket with code
1000, clears all timers, resets the backoff state and attempts an immediate
connection. -/
def forceReconnect (s : ClientState) : ClientState :=
  let s := stopPingTimer (clearReconnectTimers s)
  { s with
    isConnected := false
    reconnectAttempts := 0
    currentReconnectDelay := MXVOICE_CONFIG.reconnectDelay }

/-- State of the engine after `n` consecutive invocations of
`scheduleReconnect` starting from a freshly reset session. -/
def afterFails : ℕ → ClientState
  | 0 => handleWebSocketOpen initialClientState
  | n + 1 => scheduleReconnect (afterFails n)

/-- The delay scheduled for fast reconnection attempt `n` (1-based): the
pending timer value after the `n`-th `scheduleReconnect` from a fresh
session. -/
def scheduledDelayAt (n : ℕ) : Option ℚ :=
  (afterFails n).reconnectTimer

/-- Engine state after `n` non-clean closes (code 1006, the browser code for
a failed/aborted connection) starting from a fresh connected session.  This
is exactly the reconnection loop: each failed attempt fires a non-clean
close, whose handler schedules the next attempt. -/
def afterNonCleanCloses : ℕ → ClientState
  | 0 => handleWebSocketOpen initialClientState
  | n + 1 => handleWebSocketClose (afterNonCleanCloses n) 1006

end Client

namespace Host

/-- The shared mutable state of `src/main/modules/stream-deck.js`: the
`streamDeckState` object (fields `connected` through `muteEnabled`, in
source order), the `activeConnections` set (connections carry no identity
beyond the object itself; modelled as a finite set of connection ids), and
the truthiness of the module-level `wsServer` variable.  `currentSong` is
kept as an opaque identifier: no claim inspects song contents. -/
structure HostState where
  serverRunning : Bool
  activeConnections : Finset ℕ
  connected : Bool
  connectionCount : ℕ
  lastActivity : Option ℤ
  currentSong : Option ℕ
  isPlaying : Bool
  volume : ℚ
  position : ℚ
  duration : ℚ
  loopEnabled : Bool
  muteEnabled : Bool
  deriving DecidableEq

/-- The initial `streamDeckState` literal (and no server, no connections). -/
def initialHostState : HostState :=
  { serverRunning := false
    activeConnections := ∅
    connected := false
    connectionCount := 0
    lastActivity := none
    currentSong := none
    isPlaying := false
    volume := 1
    position := 0
    duration := 0
    loopEnabled := false
    muteEnabled := false }

/-- The renderer process as seen from the main-process module: results of
`ipcMain.invoke('get-loop-state')` / `('get-mute-state')` (`none` models an
unavailable renderer or a failed invoke, which the code silently ignores),
and whether the `executeJavaScript` hotkey DOM queries succeed. -/
structure HostEnv where
  loopState : Option Bool
  muteState : Option Bool
  hotkeyTabsOk : Bool
  hotkeyContentOk : Bool

/-- A default environment: renderer unavailable, DOM queries succeed. -/
def quietEnv : HostEnv :=
  { loopState := none, muteState := none, hotkeyTabsOk := true, hotkeyContentOk := true }

/-- Inbound command payload: the fields destructured by the registered
action handlers.  A `none` field models a missing (`undefined`) property. -/
structure Payload where
  volume : Option ℚ := none
  position : Option ℚ := none
  enabled : Option Bool := none
  songId : Option ℕ := none
  filePath : Option String := none
  tabNumber : Option ℤ := none
  deriving DecidableEq

/-- A decoded inbound message: `action`, `type` and `payload` properties
(the `payload = ` destructuring default is the all-`none` payload). -/
structure Msg where
  action : Option String := none
  type : Option String := none
  payload : Payload := {}
  deriving DecidableEq

/-- Raw bytes arriving on a connection: either they fail `JSON.parse`, or
they decode to a message. -/
inductive InMsg where
  | malformed
  | decoded (m : Msg)
  deriving DecidableEq

/-- JavaScript truthiness of an optional string (`undefined` and the empty
string are falsy). -/
def jsTruthyStr : Option String → Bool
  | none => false
  | some s => !s.isEmpty

/-- JavaScript truthiness of an optional numeric id (`undefined` and `0` are
falsy). -/
def jsTruthyNat : Option ℕ → Bool
  | none => false
  | some n => n != 0

/-- A message sent back over a connection.  `actionEnv` is the enveloped
response produced by `sendActionResponse` (action name, `success` flag,
optional error as a message-code pair); `connectionStateUpdate` is the
full-state envelope produced by `sendStateUpdate`; `pongMsg` and
`legacyError` are the plain non-envelope pong and error messages sent
directly by `handleMessage`. -/
inductive WireMsg where
  | actionEnv (action : String) (success : Bool) (error : Option (String × String))
  | connectionStateUpdate
  | pongMsg
  | legacyError (code : String) (message : String)
  deriving DecidableEq

/-- Embedding of `sendActionResponse(ws, action, success, message, errorCode)`:
builds the envelope whose action is the inbound action name suffixed with
`Response` (or `errorResponse` when the action is null), a `success` flag,
and — only when unsuccessful and a message is present — an error object
whose code defaults to `UNKNOWN_ERROR`. -/
def sendActionResponse (action : Option String) (success : Bool)
    (message errorCode : Option String) : WireMsg :=
  WireMsg.actionEnv
    (match action with
      | some a => a ++ "Response"
      | none => "errorResponse")
    success
    (if success then none
     else
       match message with
       | some m => some (m, errorCode.getD "UNKNOWN_ERROR")
       | none => none)

/-- An action handler: reads the renderer environment and the shared state,
returns the new shared state, the renderer IPC channels it sent commands
on, and its single response message. -/
def Handler : Type :=
  HostEnv → HostState → Payload → HostState × List String × WireMsg

/-- Embedding of `sendStateUpdate(ws)`: refreshes `loopEnabled` /
`muteEnabled` from the renderer when the invokes succeed (silently keeping
the stored values otherwise) and sends one `connectionStateUpdate`
envelope. -/
def sendStateUpdate (env : HostEnv) (st : HostState) : HostState × WireMsg :=
  let st :=
    match env.loopState with
    | some b => { st with loopEnabled := b }
    | none => st
  let st :=
    match env.muteState with
    | some b => { st with muteEnabled := b }
    | none => st
  (st, WireMsg.connectionStateUpdate)

/-- Handler registered for `pauseTrack`: forwards the command to the
renderer and confirms acceptance; deliberately does not touch
`streamDeckState` ("Don't optimistically update isPlaying"). -/
def pauseTrackHandler : Handler := fun _ st _ =>
  (st, ["streamdeck_pause"], sendActionResponse (some "pauseTrack") true none none)

/-- Handler registered for `playTrack`: plays by file path, by song id, or
as a smart play, depending on which payload fields are (truthily) present;
does not touch `streamDeckState`. -/
def playTrackHandler : Handler := fun _ st p =>
  if jsTruthyStr p.filePath then
    (st, ["streamdeck_play_file"], sendActionResponse (some "playTrack") true none none)
  else if jsTruthyNat p.songId then
    (st, ["streamdeck_play_song"], sendActionResponse (some "playTrack") true none none)
  else
    (st, ["streamdeck_resume"], sendActionResponse (some "playTrack") true none none)

/-- Handler registered for `stopTrack`: forwards the command; does not touch
`streamDeckState`. -/
def stopTrackHandler : Handler := fun _ st _ =>
  (st, ["streamdeck_stop"], sendActionResponse (some "stopTrack") true none none)

/-- Handler registered for `setVolume`: validates `0 ≤ volume ≤ 1`
(JavaScript comparisons against `undefined` are false, so a missing field
is rejected too), forwards the command and writes
`streamDeckState.volume`; otherwise rejects with `INVALID_VOLUME`,
touching nothing. -/
def setVolumeHandler : Handler := fun _ st p =>
  match p.volume with
  | some v =>
    if 0 ≤ v ∧ v ≤ 1 then
      ({ st with volume := v }, ["streamdeck_set_volume"],
        sendActionResponse (some "setVolume") true none none)
    else
      (st, [], sendActionResponse (some "setVolume") false
        (some "Volume must be between 0 and 1") (some "INVALID_VOLUME"))
  | none =>
    (st, [], sendActionResponse (some "setVolume") false
      (some "Volume must be between 0 and 1") (some "INVALID_VOLUME"))

/-- Handler registered for `seekToPosition`: validates `position ≥ 0`,
forwards the command and writes `streamDeckState.position`; otherwise
rejects with `INVALID_POSITION`. -/
def seekToPositionHandler : Handler := fun _ st p =>
  match p.position with
  | some q =>
    if 0 ≤ q then
      ({ st with position := q }, ["streamdeck_seek"],
        sendActionResponse (some "seekToPosition") true none none)
    else
      (st, [], sendActionResponse (some "seekToPosition") false
        (some "Position must be >= 0") (some "INVALID_POSITION"))
  | none =>
    (st, [], sendActionResponse (some "seekToPosition") false
      (some "Position must be >= 0") (some "INVALID_POSITION"))

/-- Handler registered for `toggleLoop`: always forwards the command; writes
`streamDeckState.loopEnabled` when an explicit `enabled` flag is present. -/
def toggleLoopHandler : Handler := fun _ st p =>
  let st :=
    match p.enabled with
    | some b => { st with loopEnabled := b }
    | none => st
  (st, ["streamdeck_toggle_loop"], sendActionResponse (some "toggleLoop") true none none)

/-- Handler registered for `toggleMute`: always forwards the command; writes
`streamDeckState.muteEnabled` when an explicit `enabled` flag is present. -/
def toggleMuteHandler : Handler := fun _ st p =>
  let st :=
    match p.enabled with
    | some b => { st with muteEnabled := b }
    | none => st
  (st, ["streamdeck_toggle_mute"], sendActionResponse (some "toggleMute") true none none)

/-- Handler registered for `getState`: sends the current state via
`sendStateUpdate`. -/
def getStateHandler : Handler := fun env st _ =>
  let r := sendStateUpdate env st
  (r.1, [], r.2)

/-- Handler registered for `getHotkeyTabs`: queries the renderer DOM;
responds with the tab table on success, else `HOTKEY_FETCH_ERROR`.  Does
not touch `streamDeckState`. -/
def getHotkeyTabsHandler : Handler := fun env st _ =>
  if env.hotkeyTabsOk then
    (st, [], sendActionResponse (some "getHotkeyTabs") true none none)
  else
    (st, [], sendActionResponse (some "getHotkeyTabs") false
      (some "Failed to get hotkey tabs") (some "HOTKEY_FETCH_ERROR"))

/-- Handler registered for `getHotkeyTabContent`: rejects a missing, zero,
or out-of-range (not 1..5) tab number with `INVALID_TAB_NUMBER`, then
queries the renderer DOM; responds `HOTKEY_CONTENT_FETCH_ERROR` on
failure.  Does not touch `streamDeckState`. -/
def getHotkeyTabContentHandler : Handler := fun env st p =>
  match p.tabNumber with
  | none =>
    (st, [], sendActionResponse (some "getHotkeyTabContent") false
      (some "Tab number must be between 1 and 5") (some "INVALID_TAB_NUMBER"))
  | some t =>
    if t = 0 ∨ t < 1 ∨ 5 < t then
      (st, [], sendActionResponse (some "getHotkeyTabContent") false
        (some "Tab number must be between 1 and 5") (some "INVALID_TAB_NUMBER"))
    else if env.hotkeyContentOk then
      (st, [], sendActionResponse (some "getHotkeyTabContent") true none none)
    else
      (st, [], sendActionResponse (some "getHotkeyTabContent") false
        (some "Failed to get hotkey content") (some "HOTKEY_CONTENT_FETCH_ERROR"))

/-- The action dispatch table populated once by `setupActionHandlers()`:
an immutable-after-init map from action name to handler. -/
def actionHandlers (a : String) : Option Handler :=
  if a = "pauseTrack" then some pauseTrackHandler
  else if a = "playTrack" then some playTrackHandler
  else if a = "stopTrack" then some stopTrackHandler
  else if a = "setVolume" then some setVolumeHandler
  else if a = "seekToPosition" then some seekToPositionHandler
  else if a = "toggleLoop" then some toggleLoopHandler
  else if a = "toggleMute" then some toggleMuteHandler
  else if a = "getState" then some getStateHandler
  else if a = "getHotkeyTabs" then some getHotkeyTabsHandler
  else if a = "getHotkeyTabContent" then some getHotkeyTabContentHandler
  else none

/-- Embedding of `handleActionCommand(ws, message)`: a falsy `action` is
answered `MISSING_ACTION`; an unregistered action is answered
`UNKNOWN_ACTION` naming it; otherwise the handler runs (the handlers of
this model are total functions, so the `EXECUTION_ERROR` catch of the
source has nothing to catch here). -/
def handleActionCommand (env : HostEnv) (st : HostState) (m : Msg) :
    HostState × List String × WireMsg :=
  if jsTruthyStr m.action then
    match actionHandlers (m.action.getD "") with
    | some h => h env st m.payload
    | none =>
      (st, [], sendActionResponse (some (m.action.getD "")) false
        (some ("Unknown action: " ++ m.action.getD "")) (some "UNKNOWN_ACTION"))
  else
    (st, [], sendActionResponse none false
      (some "Action is required") (some "MISSING_ACTION"))

/-- Embedding of `handleMessage(ws, data)`: a JSON-parse failure is answered
with the plain error message carrying code `PARSE_ERROR` (the catch block;
the connection itself survives).  A decoded message refreshes
`lastActivity`; one with a truthy `action` goes to the dispatcher, a ping
is answered with a pong, and anything else with the plain error carrying
`UNSUPPORTED_FORMAT`. -/
def handleMessage (env : HostEnv) (st : HostState) (now : ℤ) (raw : InMsg) :
    HostState × List String × WireMsg :=
  match raw with
  | .malformed =>
    (st, [], WireMsg.legacyError "PARSE_ERROR" "Invalid message format")
  | .decoded m =>
    let st := { st with lastActivity := some now }
    if jsTruthyStr m.action then
      handleActionCommand env st m
    else if m.type = some "ping" then
      (st, [], WireMsg.pongMsg)
    else
      (st, [], WireMsg.legacyError "UNSUPPORTED_FORMAT"
        "Unknown message format. Please use action-based format.")

/-- Sequential processing of a connection's inbound stream: every message is
fed to `handleMessage` and yields exactly one response — a malformed
message never stops the later ones from being processed. -/
def processMessages (env : HostEnv) (st : HostState) :
    List (ℤ × InMsg) → HostState × List WireMsg
  | [] => (st, [])
  | (t, raw) :: rest =>
    let r := handleMessage env st t raw
    let q := processMessages env r.1 rest
    (q.1, r.2.2 :: q.2)

/-- Predicate picking out an `errorResponse` envelope carrying code
`MISSING_ACTION`. -/
def isMissingActionResponse : WireMsg → Bool
  | .actionEnv a _ (some e) => a == "errorResponse" && e.2 == "MISSING_ACTION"
  | _ => false

/-- Predicate picking out an `errorResponse` envelope carrying code
`PARSE_ERROR`. -/
def isParseErrorEnvelope : WireMsg → Bool
  | .actionEnv a _ (some e) => a == "errorResponse" && e.2 == "PARSE_ERROR"
  | _ => false

/-- Embedding of `handleConnection(ws, request)`: registers the connection,
refreshes the count and `lastActivity`, immediately sends the initial
state to the new connection only, and marks the shared state connected. -/
def handleConnection (env : HostEnv) (st : HostState) (c : ℕ) (now : ℤ) :
    HostState × WireMsg :=
  let conns := insert c st.activeConnections
  let st := { st with
    activeConnections := conns
    connectionCount := conns.card
    lastActivity := some now }
  let r := sendStateUpdate env st
  ({ r.1 with connected := true }, r.2)

/-- Embedding of `handleDisconnection(ws)`: removes the connection and
recomputes `connectionCount` and `connected` from the registry. -/
def handleDisconnection (st : HostState) (c : ℕ) : HostState :=
  let conns := st.activeConnections.erase c
  { st with
    activeConnections := conns
    connectionCount := conns.card
    connected := decide (0 < conns.card) }

/-- Embedding of `handleConnectionError(ws, error)`: logs, then removes the
connection and recomputes `connectionCount` and `connected`, exactly as a
disconnection does. -/
def handleConnectionError (st : HostState) (c : ℕ) (error : String) : HostState :=
  let conns := st.activeConnections.erase c
  { st with
    activeConnections := conns
    connectionCount := conns.card
    connected := decide (0 < conns.card) }

/-- How the `new WebSocketServer(...)` construction behaves: it can throw
synchronously (the only case the `try/catch` in `startServer` can see),
bind successfully, or return normally with the bind failing afterwards —
in Node a port collision (`EADDRINUSE`) is delivered asynchronously
through the server error event, never as a constructor throw, which is
exactly why `startServer` registers `handleServerError` on that event. -/
inductive StartOutcome where
  | ctorThrows
  | bindsOk
  | asyncBindError (code : String)
  deriving DecidableEq

/-- Embedding of `startServer()`: refuses when already running; otherwise
constructs the server, returning `false` only if the constructor throws —
when the constructor returns normally the function returns `true`
immediately, whether or not the bind later fails. -/
def startServer (st : HostState) (outcome : StartOutcome) : HostState × Bool :=
  if st.serverRunning then (st, false)
  else
    match outcome with
    | .ctorThrows => (st, false)
    | .bindsOk => ({ st with serverRunning := true }, true)
    | .asyncBindError _ => ({ st with serverRunning := true }, true)

/-- Embedding of `handleServerError(error)`: only logs — the module state,
the registry and the caller of `startServer` are untouched. -/
def handleServerError (st : HostState) (error : String) : HostState :=
  st

/-- Resetting `streamDeckState` to its defaults (the literal assigned in
`stopServer`). -/
def resetStreamDeckState (st : HostState) : HostState :=
  { st with
    connected := false
    connectionCount := 0
    lastActivity := none
    currentSong := none
    isPlaying := false
    volume := 1
    position := 0
    duration := 0
    loopEnabled := false
    muteEnabled := false }

/-- Embedding of `stopServer()`: a no-op returning `false` when no server is
running; otherwise closes every connection with the clean code 1000,
clears the registry, closes the server and resets `streamDeckState` to its
defaults. -/
def stopServer (st : HostState) : HostState × Bool :=
  if st.serverRunning then
    (resetStreamDeckState
      { st with activeConnections := ∅, serverRunning := false }, true)
  else
    (st, false)

/-- Transport-level view of one registered WebSocket connection, as the send
path sees it: whether the ready state is OPEN, the `authenticated`
property (never set by this module, hence `undefined`, modelled `none`),
and whether `ws.send` would throw for it. -/
structure WsConn where
  readyStateOpen : Bool
  authenticated : Option Bool := none
  sendThrows : Bool := false
  deriving DecidableEq

/-- Outcome of `sendMessage(ws, message)` on one connection. -/
inductive SendOutcome where
  | delivered
  | skippedNotOpen
  | errorCaught
  | skippedAuth
  deriving DecidableEq

/-- Embedding of `sendMessage(ws, message)`: skips a connection that is not
open; catches (and only logs) a send failure, so it never throws. -/
def sendMessageTo (c : WsConn) : SendOutcome :=
  if c.readyStateOpen then
    if c.sendThrows then .errorCaught else .delivered
  else
    .skippedNotOpen

/-- Embedding of `broadcastMessage(message)`: iterates every registered
connection in order; each connection whose `authenticated` property is not
`false` gets its own independent `sendMessage` attempt. -/
def broadcastMessage : List WsConn → List SendOutcome
  | [] => []
  | c :: rest =>
    (if c.authenticated ≠ some false then sendMessageTo c else .skippedAuth)
      :: broadcastMessage rest

/-- Number of successful deliveries in a broadcast result. -/
def deliveredCount (rs : List SendOutcome) : ℕ :=
  rs.count .delivered

/-- An open, healthy connection. -/
def openConn : WsConn := { readyStateOpen := true }

/-- An already-closed connection still present in the registry. -/
def closedConn : WsConn := { readyStateOpen := false }

/-- An open connection whose `ws.send` throws. -/
def failingConn : WsConn := { readyStateOpen := true, sendThrows := true }

/-- The registry/state consistency invariant of claim C9:
`streamDeckState.connectionCount` equals the registry size and
`streamDeckState.connected` holds exactly when the registry is
non-empty. -/
def registryInvariant (st : HostState) : Prop :=
  st.connectionCount = st.activeConnections.card ∧
    (st.connected = true ↔ 0 < st.activeConnections.card)

end Host

namespace Hotkeys

/-- The `_lastNotification` record of the hotkeys module: the single most
recent suppression marker (`fromTab`, `toTab`, `timestamp`; the
`signature` string is derived data and elided). -/
structure DedupMarker where
  fromTab : Option ℤ
  toTab : ℤ
  timestamp : ℤ
  deriving DecidableEq

/-- Embedding of the dedup logic in the Bootstrap tab-shown listener
installed by `setupTabSwitchListeners` (the same check guards
`switchToHotkeyTab`): if the stored marker carries the identical
`(fromTab, toTab)` key and is less than 500 ms old, suppress; otherwise
record the new marker and emit one `tab-switched` notification (which the
main process broadcasts as one `hotkeyStateUpdate`).  Returns the new
marker state and whether a notification was emitted. -/
def tabSwitchStep (last : Option DedupMarker) (fromTab : Option ℤ) (toTab : ℤ)
    (now : ℤ) : Option DedupMarker × Bool :=
  match last with
  | some l =>
    if l.fromTab = fromTab ∧ l.toTab = toTab ∧ now - l.timestamp < 500 then
      (some l, false)
    else
      (some ⟨fromTab, toTab, now⟩, true)
  | none => (some ⟨fromTab, toTab, now⟩, true)

/-- Number of notifications emitted for a sequence of tab-switch events
`(now, fromTab, toTab)`, starting from a given marker state. -/
def emittedCount (last : Option DedupMarker) :
    List (ℤ × Option ℤ × ℤ) → ℕ
  | [] => 0
  | (now, f, t) :: rest =>
    let r := tabSwitchStep last f t now
    (if r.2 then 1 else 0) + emittedCount r.1 rest

end Hotkeys

theorem mathMin_eq_min (a b : ℚ) : mathMin a b = min a b :=
  (min_def a b).symm

/-- C1: starting from a freshly reset reconnect session, the delays scheduled
for fast reconnection attempts 1 through 10 are exactly
3000, 4500, 6750, 10125, 15187.5, 22781.25, 30000, 30000, 30000, 30000 ms,
and for every attempt `n` in 1..10 the scheduled delay equals
`min (3000 * 1.5^(n-1)) 30000`. -/
theorem c1_fast_reconnect_delays :
    (List.range 10).map (fun i => Client.scheduledDelayAt (i + 1)) =
      [some 3000, some 4500, some 6750, some 10125, some 15187.5,
       some 22781.25, some 30000, some 30000, some 30000, some 30000] ∧
    ∀ i : Fin 10,
      Client.scheduledDelayAt (i.val + 1) =
        some (min (3000 * (1.5 : ℚ) ^ i.val) 30000) := by
  constructor
  · norm_num [Client.scheduledDelayAt, Client.afterFails, Client.scheduleReconnect,
      Client.clearReconnectTimers, Client.startSlowReconnect, Client.handleWebSocketOpen,
      Client.initialClientState, Client.MXVOICE_CONFIG, mathMin, List.range_succ]
  · intro i
    fin_cases i <;>
      norm_num [Client.scheduledDelayAt, Client.afterFails, Client.scheduleReconnect,
        Client.clearReconnectTimers, Client.startSlowReconnect, Client.handleWebSocketOpen,
        Client.initialClientState, Client.MXVOICE_CONFIG, mathMin]

/-- C5 (counterexample): it is not the case that every non-clean close lands
in `FastRetry(1)`.  After three failed attempts (a state reached purely by
non-clean closes of a fresh session), a further non-clean close schedules
fast attempt 4, not attempt 1 — the attempt counter must advance across
the retry loop, or the C1 backoff sequence could never progress. -/
theorem c5_counterexample_nonclean_close_not_always_attempt_one :
    (Client.afterNonCleanCloses 3).reconnectAttempts = 3 ∧
    (Client.handleWebSocketClose (Client.afterNonCleanCloses 3) 1006).reconnectAttempts = 4 ∧
    ¬ (Client.handleWebSocketClose
        (Client.afterNonCleanCloses 3) 1006).reconnectAttempts = 1 := by
  refine ⟨?_, ?_, ?_⟩ <;>
    norm_num [Client.afterNonCleanCloses, Client.handleWebSocketClose,
      Client.scheduleReconnect, Client.clearReconnectTimers, Client.stopPingTimer,
      Client.startSlowReconnect, Client.handleWebSocketOpen, Client.initialClientState,
      Client.MXVOICE_CONFIG, mathMin]

/-- C5 (amended): a close with the clean-shutdown code 1000 schedules no
reconnection (the close handler leaves the retry timers and the attempt
counter untouched); a close with any other code always schedules one:
the next fast retry with attempt counter `n+1` while fewer than 10 fast
attempts have been used — in particular `FastRetry(1)` when the session is
freshly reset (`reconnectAttempts = 0`, as after every successful open) —
and slow periodic retry once the 10 fast attempts are exhausted. -/
theorem c5_close_clean_vs_nonclean (s : Client.ClientState) (code : ℕ) :
    (code = 1000 →
      (Client.handleWebSocketClose s code).reconnectTimer = s.reconnectTimer ∧
      (Client.handleWebSocketClose s code).slowReconnectTimer = s.slowReconnectTimer ∧
      (Client.handleWebSocketClose s code).reconnectAttempts = s.reconnectAttempts) ∧
    (code ≠ 1000 → s.reconnectAttempts < 10 →
      (Client.handleWebSocketClose s code).reconnectAttempts = s.reconnectAttempts + 1 ∧
      (Client.handleWebSocketClose s code).reconnectTimer
        = some (min s.currentReconnectDelay 30000) ∧
      (Client.handleWebSocketClose s code).slowReconnectTimer = false) ∧
    (code ≠ 1000 → 10 ≤ s.reconnectAttempts →
      (Client.handleWebSocketClose s code).reconnectTimer = none ∧
      (Client.handleWebSocketClose s code).slowReconnectTimer = true) := by
  refine ⟨?_, ?_, ?_⟩
  · intro hc
    simp [Client.handleWebSocketClose, hc, Client.stopPingTimer]
  · intro hc hlt
    simp [Client.handleWebSocketClose, hc, Client.stopPingTimer,
      Client.scheduleReconnect, Client.clearReconnectTimers,
      Client.MXVOICE_CONFIG, hlt, mathMin_eq_min]
  · intro hc hge
    simp [Client.handleWebSocketClose, hc, Client.stopPingTimer,
      Client.scheduleReconnect, Client.clearReconnectTimers,
      Client.startSlowReconnect, Client.MXVOICE_CONFIG, Nat.not_lt.mpr hge]

/-- Witness for `c5_close_clean_vs_nonclean`: evaluates the theorem at the
freshly reset session for a clean close (code 1000: nothing scheduled) and
for a non-clean close (code 1006: fast attempt 1 scheduled at 3000 ms). -/
theorem c5_close_clean_vs_nonclean_witness :
    ((Client.handleWebSocketClose (Client.afterNonCleanCloses 0) 1000).reconnectTimer
        = none ∧
      (Client.handleWebSocketClose (Client.afterNonCleanCloses 0) 1000).slowReconnectTimer
        = false) ∧
    ((Client.handleWebSocketClose (Client.afterNonCleanCloses 0) 1006).reconnectAttempts
        = 1 ∧
      (Client.handleWebSocketClose (Client.afterNonCleanCloses 0) 1006).reconnectTimer
        = some 3000) := by
  have hclean :=
    (c5_close_clean_vs_nonclean (Client.afterNonCleanCloses 0) 1000).1 rfl
  have hdirty :=
    (c5_close_clean_vs_nonclean (Client.afterNonCleanCloses 0) 1006).2.1
      (by norm_num)
      (by norm_num [Client.afterNonCleanCloses, Client.handleWebSocketOpen,
        Client.initialClientState, Client.clearReconnectTimers, Client.MXVOICE_CONFIG])
  refine ⟨⟨?_, ?_⟩, ?_, ?_⟩
  · rw [hclean.1]
    norm_num [Client.afterNonCleanCloses, Client.handleWebSocketOpen,
      Client.initialClientState, Client.clearReconnectTimers, Client.MXVOICE_CONFIG]
  · rw [hclean.2.1]
    norm_num [Client.afterNonCleanCloses, Client.handleWebSocketOpen,
      Client.initialClientState, Client.clearReconnectTimers, Client.MXVOICE_CONFIG]
  · exact hdirty.1.trans (by
      norm_num [Client.afterNonCleanCloses, Client.handleWebSocketOpen,
        Client.initialClientState, Client.clearReconnectTimers, Client.MXVOICE_CONFIG])
  · rw [hdirty.2.1]
    norm_num [Client.afterNonCleanCloses, Client.handleWebSocketOpen,
      Client.initialClientState, Client.clearReconnectTimers, Client.MXVOICE_CONFIG]

/-- Helper: every inbound message yields exactly one response; a malformed
message does not stop processing of the rest of the stream. -/
theorem processMessages_length_eq (env : Host.HostEnv) (st : Host.HostState)
    (msgs : List (ℤ × Host.InMsg)) :
    (Host.processMessages env st msgs).2.length = msgs.length := by
  induction msgs generalizing st with
  | nil => rfl
  | cons hd tl ih =>
    obtain ⟨t, raw⟩ := hd
    simp [Host.processMessages, ih]

/-- Helper: a broadcast attempts a send for every registered connection. -/
theorem broadcastMessage_length (cs : List Host.WsConn) :
    (Host.broadcastMessage cs).length = cs.length := by
  induction cs with
  | nil => rfl
  | cons c rest ih => simp [Host.broadcastMessage, ih]

/-- C2 (counterexample): the `setVolume` handler IS an origin of a state
change on the host: dispatching `setVolume` with a valid volume 0.5
overwrites `streamDeckState.volume` (1.0 in the initial state) before any
authoritative domain event arrives. -/
theorem c2_counterexample_setVolume_mutates_store :
    (Host.handleActionCommand Host.quietEnv Host.initialHostState
        { action := some "setVolume", payload := { volume := some (1/2) } }).1.volume
      = 1/2 ∧
    Host.initialHostState.volume = 1 ∧
    (Host.handleActionCommand Host.quietEnv Host.initialHostState
        { action := some "setVolume", payload := { volume := some (1/2) } }).1.volume
      ≠ Host.initialHostState.volume := by
  have hd : Host.handleActionCommand Host.quietEnv Host.initialHostState
      { action := some "setVolume", payload := { volume := some (1/2) } }
      = Host.setVolumeHandler Host.quietEnv Host.initialHostState
          { volume := some (1/2) } := rfl
  have hv : (Host.setVolumeHandler Host.quietEnv Host.initialHostState
      { volume := some (1/2) }).1.volume = 1/2 := by
    dsimp only [Host.setVolumeHandler]
    rw [if_pos (by norm_num : (0:ℚ) ≤ 1/2 ∧ (1:ℚ)/2 ≤ 1)]
  refine ⟨hd ▸ hv, rfl, ?_⟩
  rw [hd, hv]
  norm_num [Host.initialHostState]

/-- C2 (amended): the playback-transport handlers (`pauseTrack`, `playTrack`,
`stopTrack`) leave the canonical `streamDeckState` unchanged, but —
contrary to the claim — the `setVolume`, `seekToPosition`, `toggleLoop`
and `toggleMute` handlers write the corresponding field (`volume`,
`position`, `loopEnabled`, `muteEnabled`) directly when given a valid
parameter; with an invalid volume, or no explicit `enabled` flag, the
store is left untouched. -/
theorem c2_handler_state_effects (env : Host.HostEnv) (st : Host.HostState)
    (p : Host.Payload) :
    ((Host.pauseTrackHandler env st p).1 = st ∧
      (Host.playTrackHandler env st p).1 = st ∧
      (Host.stopTrackHandler env st p).1 = st) ∧
    (∀ v : ℚ, p.volume = some v → 0 ≤ v → v ≤ 1 →
      (Host.setVolumeHandler env st p).1 = { st with volume := v }) ∧
    (∀ v : ℚ, p.volume = some v → ¬ (0 ≤ v ∧ v ≤ 1) →
      (Host.setVolumeHandler env st p).1 = st) ∧
    (∀ q : ℚ, p.position = some q → 0 ≤ q →
      (Host.seekToPositionHandler env st p).1 = { st with position := q }) ∧
    (∀ b : Bool, p.enabled = some b →
      (Host.toggleLoopHandler env st p).1 = { st with loopEnabled := b } ∧
      (Host.toggleMuteHandler env st p).1 = { st with muteEnabled := b }) ∧
    (p.enabled = none →
      (Host.toggleLoopHandler env st p).1 = st ∧
      (Host.toggleMuteHandler env st p).1 = st) := by
  refine ⟨⟨rfl, ?_, rfl⟩, ?_, ?_, ?_, ?_, ?_⟩
  · unfold Host.playTrackHandler
    split_ifs <;> rfl
  · intro v hv h0 h1
    dsimp only [Host.setVolumeHandler]
    rw [hv]
    dsimp only
    rw [if_pos ⟨h0, h1⟩]
  · intro v hv hn
    dsimp only [Host.setVolumeHandler]
    rw [hv]
    dsimp only
    rw [if_neg hn]
  · intro q hq h0
    dsimp only [Host.seekToPositionHandler]
    rw [hq]
    dsimp only
    rw [if_pos h0]
  · intro b hb
    constructor
    · dsimp only [Host.toggleLoopHandler]
      rw [hb]
    · dsimp only [Host.toggleMuteHandler]
      rw [hb]
  · intro hb
    constructor
    · dsimp only [Host.toggleLoopHandler]
      rw [hb]
    · dsimp only [Host.toggleMuteHandler]
      rw [hb]

/-- Witness for `c2_handler_state_effects`: concrete evaluations at the
initial state — `pauseTrack` leaves it unchanged, `setVolume 0.5` writes
the volume, `setVolume 2` is rejected leaving it unchanged, `seek 10`
writes the position, `toggleLoop enabled:true` writes the loop flag, and
`toggleMute` with no flag leaves it unchanged. -/
theorem c2_handler_state_effects_witness :
    (Host.pauseTrackHandler Host.quietEnv Host.initialHostState {}).1
      = Host.initialHostState ∧
    (Host.setVolumeHandler Host.quietEnv Host.initialHostState
        { volume := some (1/2) }).1 = { Host.initialHostState with volume := 1/2 } ∧
    (Host.setVolumeHandler Host.quietEnv Host.initialHostState
        { volume := some 2 }).1 = Host.initialHostState ∧
    (Host.seekToPositionHandler Host.quietEnv Host.initialHostState
        { position := some 10 }).1 = { Host.initialHostState with position := 10 } ∧
    (Host.toggleLoopHandler Host.quietEnv Host.initialHostState
        { enabled := some true }).1
      = { Host.initialHostState with loopEnabled := true } ∧
    (Host.toggleMuteHandler Host.quietEnv Host.initialHostState {}).1
      = Host.initialHostState := by
  have h1 := c2_handler_state_effects Host.quietEnv Host.initialHostState {}
  have h2 := c2_handler_state_effects Host.quietEnv Host.initialHostState
    { volume := some (1/2) }
  have h3 := c2_handler_state_effects Host.quietEnv Host.initialHostState
    { volume := some 2 }
  have h4 := c2_handler_state_effects Host.quietEnv Host.initialHostState
    { position := some 10 }
  have h5 := c2_handler_state_effects Host.quietEnv Host.initialHostState
    { enabled := some true }
  exact ⟨h1.1.1,
    h2.2.1 _ rfl (by norm_num) (by norm_num),
    h3.2.2.1 _ rfl (by norm_num),
    h4.2.2.2.1 _ rfl (by norm_num),
    (h5.2.2.2.2.1 _ rfl).1,
    (h1.2.2.2.2.2 rfl).2⟩

/-- C3 (counterexample): a well-formed JSON message lacking an `action`
field (and not a ping) is answered with the plain legacy error carrying
code `UNSUPPORTED_FORMAT` — not with an `errorResponse` envelope carrying
`PARSE_ERROR` as the claim states. -/
theorem c3_counterexample_missing_action_not_parse_error :
    (Host.handleMessage Host.quietEnv Host.initialHostState 0
        (.decoded { type := some "status" })).2.2
      = Host.WireMsg.legacyError "UNSUPPORTED_FORMAT"
          "Unknown message format. Please use action-based format." ∧
    Host.isParseErrorEnvelope
      (Host.handleMessage Host.quietEnv Host.initialHostState 0
        (.decoded { type := some "status" })).2.2 = false := by
  exact ⟨rfl, rfl⟩

/-- C3 (amended): decoding fails closed, but not quite as claimed — raw
bytes failing JSON parse are answered with the plain legacy
`PARSE_ERROR` message (not an enveloped `errorResponse`); a decoded
message lacking a truthy `action` is answered with a pong when it is the
ping keep-alive and with the plain legacy `UNSUPPORTED_FORMAT` error
otherwise (never `PARSE_ERROR`); and in every case the connection
survives: each message of the inbound stream yields exactly one
response. -/
theorem c3_decode_fails_closed (env : Host.HostEnv) (st : Host.HostState) (now : ℤ) :
    (Host.handleMessage env st now .malformed
      = (st, [], Host.WireMsg.legacyError "PARSE_ERROR" "Invalid message format")) ∧
    (∀ m : Host.Msg, Host.jsTruthyStr m.action = false → m.type = some "ping" →
      (Host.handleMessage env st now (.decoded m)).2.2 = Host.WireMsg.pongMsg) ∧
    (∀ m : Host.Msg, Host.jsTruthyStr m.action = false → m.type ≠ some "ping" →
      (Host.handleMessage env st now (.decoded m)).2.2
        = Host.WireMsg.legacyError "UNSUPPORTED_FORMAT"
            "Unknown message format. Please use action-based format.") ∧
    (∀ msgs : List (ℤ × Host.InMsg),
      (Host.processMessages env st msgs).2.length = msgs.length) := by
  refine ⟨rfl, ?_, ?_, processMessages_length_eq env st⟩
  · intro m ha ht
    simp [Host.handleMessage, ha, ht]
  · intro m ha ht
    simp [Host.handleMessage, ha, ht]

/-- Witness for `c3_decode_fails_closed`: concrete evaluations — a malformed
message gets the legacy `PARSE_ERROR`, a ping gets a pong, an action-less
status message gets `UNSUPPORTED_FORMAT`, and a stream of three messages
(one malformed in the middle) yields three responses. -/
theorem c3_decode_fails_closed_witness :
    (Host.handleMessage Host.quietEnv Host.initialHostState 5 .malformed).2.2
      = Host.WireMsg.legacyError "PARSE_ERROR" "Invalid message format" ∧
    (Host.handleMessage Host.quietEnv Host.initialHostState 5
        (.decoded { type := some "ping" })).2.2 = Host.WireMsg.pongMsg ∧
    (Host.handleMessage Host.quietEnv Host.initialHostState 5
        (.decoded { type := some "status" })).2.2
      = Host.WireMsg.legacyError "UNSUPPORTED_FORMAT"
          "Unknown message format. Please use action-based format." ∧
    (Host.processMessages Host.quietEnv Host.initialHostState
        [(1, .decoded { type := some "ping" }), (2, .malformed),
         (3, .decoded { type := some "ping" })]).2.length = 3 := by
  have h := c3_decode_fails_closed Host.quietEnv Host.initialHostState 5
  refine ⟨?_, h.2.1 _ rfl rfl, h.2.2.1 _ rfl (by simp), ?_⟩
  · rw [h.1]
  · have h2 := c3_decode_fails_closed Host.quietEnv Host.initialHostState 5
    exact h2.2.2.2 _

/-- C4 (code bug): with a port already in use, the `ws` server construction
returns normally and the `EADDRINUSE` bind failure arrives asynchronously
on the server error event — so `startServer` has already returned `true`
(success) to its caller and left the module believing the server runs,
while `handleServerError` merely logs, changing nothing.  The claim (and
the spec) require the bind error to surface synchronously as a failure
result. -/
theorem c4_async_bind_error_reported_as_success :
    (Host.startServer Host.initialHostState (.asyncBindError "EADDRINUSE")).2 = true ∧
    (Host.startServer Host.initialHostState
        (.asyncBindError "EADDRINUSE")).1.serverRunning = true ∧
    Host.handleServerError
        (Host.startServer Host.initialHostState (.asyncBindError "EADDRINUSE")).1
        "EADDRINUSE"
      = (Host.startServer Host.initialHostState (.asyncBindError "EADDRINUSE")).1 := by
  exact ⟨rfl, rfl, rfl⟩

/-- C6: two dedup-eligible tab-switch notifications with the identical key
`fromTab=2, toTab=3` emitted 100 ms apart produce exactly one emission
(the second is suppressed); 600 ms apart they produce exactly two; and the
suppression check consults only the single most recent marker — a step
either keeps the stored marker unchanged or replaces it wholesale with the
marker of the new event, so no log ever accumulates. -/
theorem c6_tab_switch_dedup :
    Hotkeys.emittedCount none [(0, some 2, 3), (100, some 2, 3)] = 1 ∧
    Hotkeys.emittedCount none [(0, some 2, 3), (600, some 2, 3)] = 2 ∧
    ∀ (last : Option Hotkeys.DedupMarker) (f : Option ℤ) (t now : ℤ),
      (Hotkeys.tabSwitchStep last f t now).1 = last ∨
      (Hotkeys.tabSwitchStep last f t now).1 = some ⟨f, t, now⟩ := by
  refine ⟨by decide, by decide, ?_⟩
  intro last f t now
  cases last with
  | none => right; rfl
  | some l =>
    dsimp only [Hotkeys.tabSwitchStep]
    split_ifs
    · left; rfl
    · right; rfl

/-- C7: broadcasting one envelope to a registry of three open connections
and one already-closed connection yields exactly three successful
deliveries; a dead or throwing connection only affects its own slot —
every connection gets its own independent send attempt (the result list
always has one entry per registered connection), so a failure on one never
prevents delivery to the others. -/
theorem c7_broadcast_isolated_delivery :
    Host.broadcastMessage [Host.openConn, Host.openConn, Host.openConn, Host.closedConn]
      = [.delivered, .delivered, .delivered, .skippedNotOpen] ∧
    Host.deliveredCount (Host.broadcastMessage
        [Host.openConn, Host.openConn, Host.openConn, Host.closedConn]) = 3 ∧
    Host.broadcastMessage [Host.openConn, Host.failingConn, Host.openConn]
      = [.delivered, .errorCaught, .delivered] ∧
    ∀ cs : List Host.WsConn, (Host.broadcastMessage cs).length = cs.length := by
  exact ⟨rfl, rfl, rfl, broadcastMessage_length⟩

/-- C8: every `setVolume` command whose volume lies outside `[0, 1]` is
answered through the dispatcher with the `setVolumeResponse` envelope
carrying `success: false` and error code `INVALID_VOLUME`, and the
canonical state — in particular `streamDeckState.volume` — is left
unchanged. -/
theorem c8_invalid_volume_rejected (env : Host.HostEnv) (st : Host.HostState)
    (v : ℚ) (h : v < 0 ∨ 1 < v) :
    (Host.handleActionCommand env st
        { action := some "setVolume", payload := { volume := some v } }).2.2
      = Host.WireMsg.actionEnv "setVolumeResponse" false
          (some ("Volume must be between 0 and 1", "INVALID_VOLUME")) ∧
    (Host.handleActionCommand env st
        { action := some "setVolume", payload := { volume := some v } }).1
      = st := by
  have hd : Host.handleActionCommand env st
      { action := some "setVolume", payload := { volume := some v } }
      = Host.setVolumeHandler env st { volume := some v } := rfl
  have hn : ¬ (0 ≤ v ∧ v ≤ 1) := by
    rcases h with h | h
    · exact fun hc => absurd h (not_lt.mpr hc.1)
    · exact fun hc => absurd h (not_lt.mpr hc.2)
  rw [hd]
  dsimp only [Host.setVolumeHandler]
  rw [if_neg hn]
  exact ⟨rfl, rfl⟩

/-- Witness for `c8_invalid_volume_rejected`: a `setVolume` command with
volume 1.5 is rejected with `INVALID_VOLUME` and the state survives
unchanged. -/
theorem c8_invalid_volume_rejected_witness :
    ((3:ℚ)/2 < 0 ∨ 1 < (3:ℚ)/2) ∧
    (Host.handleActionCommand Host.quietEnv Host.initialHostState
        { action := some "setVolume", payload := { volume := some (3/2) } }).2.2
      = Host.WireMsg.actionEnv "setVolumeResponse" false
          (some ("Volume must be between 0 and 1", "INVALID_VOLUME")) ∧
    (Host.handleActionCommand Host.quietEnv Host.initialHostState
        { action := some "setVolume", payload := { volume := some (3/2) } }).1
      = Host.initialHostState := by
  have h := c8_invalid_volume_rejected Host.quietEnv Host.initialHostState (3/2)
    (Or.inr (by norm_num))
  exact ⟨Or.inr (by norm_num), h.1, h.2⟩

/-- Helper: `sendStateUpdate` refreshes only the loop/mute flags — the
registry and the connection bookkeeping fields pass through unchanged. -/
theorem handleConnection_registry_fields (env : Host.HostEnv) (st : Host.HostState)
    (c : ℕ) (now : ℤ) :
    (Host.handleConnection env st c now).1.activeConnections
        = insert c st.activeConnections ∧
    (Host.handleConnection env st c now).1.connectionCount
        = (insert c st.activeConnections).card ∧
    (Host.handleConnection env st c now).1.connected = true := by
  obtain ⟨ls, ms, ht, hc⟩ := env
  cases ls <;> cases ms <;> exact ⟨rfl, rfl, rfl⟩

/-- C9: after each connection-registry operation — accepting a connection,
handling a close, handling a connection error, stopping the server —
`streamDeckState.connectionCount` equals the registry size and
`streamDeckState.connected` holds exactly when the registry is
non-empty. -/
theorem c9_registry_invariant_preserved (env : Host.HostEnv) (st : Host.HostState)
    (c : ℕ) (now : ℤ) (e : String) (h : Host.registryInvariant st) :
    Host.registryInvariant (Host.handleConnection env st c now).1 ∧
    Host.registryInvariant (Host.handleDisconnection st c) ∧
    Host.registryInvariant (Host.handleConnectionError st c e) ∧
    Host.registryInvariant (Host.stopServer st).1 := by
  refine ⟨?_, ?_, ?_, ?_⟩
  · obtain ⟨h1, h2, h3⟩ := handleConnection_registry_fields env st c now
    constructor
    · rw [h2, h1]
    · rw [h3, h1]
      simp [Finset.card_pos]
  · constructor
    · rfl
    · simp [Host.handleDisconnection]
  · constructor
    · rfl
    · simp [Host.handleConnectionError]
  · by_cases hr : st.serverRunning
    · constructor <;>
        simp [Host.stopServer, hr, Host.resetStreamDeckState]
    · simpa [Host.stopServer, hr] using h

/-- Witness for `c9_registry_invariant_preserved`: the invariant holds of the
initial state and is preserved by each operation applied there. -/
theorem c9_registry_invariant_preserved_witness :
    Host.registryInvariant Host.initialHostState ∧
    Host.registryInvariant
      (Host.handleConnection Host.quietEnv Host.initialHostState 7 42).1 ∧
    Host.registryInvariant (Host.handleDisconnection Host.initialHostState 7) ∧
    Host.registryInvariant
      (Host.handleConnectionError Host.initialHostState 7 "ECONNRESET") ∧
    Host.registryInvariant (Host.stopServer Host.initialHostState).1 := by
  have h0 : Host.registryInvariant Host.initialHostState := by
    constructor <;> simp [Host.initialHostState]
  have h := c9_registry_invariant_preserved Host.quietEnv Host.initialHostState
    7 42 "ECONNRESET" h0
  exact ⟨h0, h.1, h.2.1, h.2.2.1, h.2.2.2⟩

set_option maxHeartbeats 1000000 in
/-- Helper: no registered handler ever answers with an `errorResponse`
envelope carrying code `MISSING_ACTION`. -/
theorem handlerResponse_not_missing (env : Host.HostEnv) (st : Host.HostState)
    (p : Host.Payload) (name : String) (h : Host.Handler)
    (hh : Host.actionHandlers name = some h) :
    Host.isMissingActionResponse (h env st p).2.2 = false := by
  obtain ⟨pv, pp, pe, ps, pf, pt⟩ := p
  obtain ⟨el, em, et, ec⟩ := env
  unfold Host.actionHandlers at hh
  split_ifs at hh <;> cases hh
  · rfl
  · unfold Host.playTrackHandler
    split_ifs <;> rfl
  · rfl
  · cases pv with
    | none => rfl
    | some v =>
      dsimp only [Host.setVolumeHandler]
      split_ifs <;> rfl
  · cases pp with
    | none => rfl
    | some q =>
      dsimp only [Host.seekToPositionHandler]
      split_ifs <;> rfl
  · cases pe <;> rfl
  · cases pe <;> rfl
  · cases el <;> cases em <;> rfl
  · cases et <;> rfl
  · cases pt with
    | none => rfl
    | some t =>
      dsimp only [Host.getHotkeyTabContentHandler]
      split_ifs <;> rfl

/-- C10: the `MISSING_ACTION` branch of the dispatcher is unreachable from
the message path — no inbound message is ever answered with an
`errorResponse` envelope carrying `MISSING_ACTION`, because
`handleActionCommand` is invoked only for messages with a truthy `action`;
a decoded message lacking one is answered with a pong when it is the ping
keep-alive and with the `UNSUPPORTED_FORMAT` legacy error otherwise. -/
theorem c10_missing_action_unreachable (env : Host.HostEnv) (st : Host.HostState)
    (now : ℤ) :
    (∀ raw : Host.InMsg,
      Host.isMissingActionResponse (Host.handleMessage env st now raw).2.2 = false) ∧
    (∀ m : Host.Msg, Host.jsTruthyStr m.action = false →
      (Host.handleMessage env st now (.decoded m)).2.2
        = (if m.type = some "ping" then Host.WireMsg.pongMsg
           else Host.WireMsg.legacyError "UNSUPPORTED_FORMAT"
             "Unknown message format. Please use action-based format.")) := by
  constructor
  · intro raw
    cases raw with
    | malformed => rfl
    | decoded m =>
      by_cases ha : Host.jsTruthyStr m.action = true
      · have hd : Host.handleMessage env st now (.decoded m)
            = Host.handleActionCommand env { st with lastActivity := some now } m := by
          simp [Host.handleMessage, ha]
        rw [hd]
        unfold Host.handleActionCommand
        rw [if_pos ha]
        cases hh : Host.actionHandlers (m.action.getD "") with
        | none =>
          simp only [hh]
          simp [Host.sendActionResponse, Host.isMissingActionResponse,
            show (("UNKNOWN_ACTION" == "MISSING_ACTION") : Bool) = false from rfl]
        | some hdl =>
          simp only [hh]
          exact handlerResponse_not_missing _ _ _ _ hdl hh
      · rw [Bool.not_eq_true] at ha
        simp only [Host.handleMessage, ha, Bool.false_eq_true, if_false]
        split_ifs <;> rfl
  · intro m ha
    simp only [Host.handleMessage, ha, Bool.false_eq_true, if_false]
    split_ifs <;> rfl

/-- Witness for `c10_missing_action_unreachable`: concrete evaluations — a
dispatched `pauseTrack` command, a malformed message, a ping and a plain
status message all produce a response other than `MISSING_ACTION`, and the
two action-less ones get exactly the pong / `UNSUPPORTED_FORMAT` answers. -/
theorem c10_missing_action_unreachable_witness :
    Host.isMissingActionResponse
        (Host.handleMessage Host.quietEnv Host.initialHostState 0
          (.decoded { action := some "pauseTrack" })).2.2 = false ∧
    Host.isMissingActionResponse
        (Host.handleMessage Host.quietEnv Host.initialHostState 0 .malformed).2.2
      = false ∧
    (Host.handleMessage Host.quietEnv Host.initialHostState 0
        (.decoded { type := some "ping" })).2.2 = Host.WireMsg.pongMsg ∧
    (Host.handleMessage Host.quietEnv Host.initialHostState 0
        (.decoded { type := some "status" })).2.2
      = Host.WireMsg.legacyError "UNSUPPORTED_FORMAT"
          "Unknown message format. Please use action-based format." := by
  have h := c10_missing_action_unreachable Host.quietEnv Host.initialHostState 0
  refine ⟨h.1 _, h.1 _, ?_, ?_⟩
  · exact (h.2 { type := some "ping" } rfl).trans (by rfl)
  · exact (h.2 { type := some "status" } rfl).trans (by rfl)
